import Mathlib

/-!
Shallow embedding of the café-review web application (`src/app.py`) and
verification of its specification claims.

The application is a set of Flask request handlers over a MongoDB document
store.  Each handler is embedded as a pure Lean function from an explicit
application state (the three document collections the in-scope routes touch)
and the request inputs (form fields, URL parameters, the authenticated user)
to a result record carrying the new state, the list of flash messages the
handler emitted, and the HTTP response (a redirect or a template render).

External collaborators are made explicit parameters:
  * password hashing (`werkzeug.security`) is passed in as functions
    `gen : String → String` / `check : String → String → Bool`;
  * the fresh `_id` that `insert_one` assigns and the `utcnow` timestamp are
    passed in as arguments;
  * a document-store lookup that may itself fail (for `load_user`) is an
    argument of type `OId → Except String (Option UserDoc)`.

Strings are Lean strings; Python's `str.strip` / `str.lower` / `str.isdigit`
are modelled on ASCII (structural `List.dropWhile Char.isWhitespace`,
`Char.toLower`, `Char.isDigit`), which covers every string the handlers
themselves produce.
-/

/-- Python `str.strip()` (ASCII whitespace): drop whitespace characters from
both ends. -/
def pyStrip (s : String) : String :=
  ⟨((s.data.dropWhile Char.isWhitespace).reverse.dropWhile Char.isWhitespace).reverse⟩

/-- Python `str.lower()` (ASCII). -/
def pyLower (s : String) : String := ⟨s.data.map Char.toLower⟩

/-- Python `str.isdigit()` (ASCII digits): non-empty and every character a digit. -/
def pyIsdigit (s : String) : Bool := !s.data.isEmpty && s.data.all Char.isDigit

/-- Numeric value of a digit string, as computed by Python `int(s)` when
`s.isdigit()` holds. -/
def digitsVal (l : List Char) : Nat := l.foldl (fun a c => a * 10 + (c.toNat - 48)) 0

/-- Python `int(s)` restricted to the digit-string case used by the handlers. -/
def pyIntNat (s : String) : Nat := digitsVal s.data

/-- Python `str.capitalize()`: first character upper-cased, the rest lower-cased
(ASCII). -/
def pyCapitalize (s : String) : String :=
  match s.data with
  | [] => ""
  | c :: cs => ⟨c.toUpper :: cs.map Char.toLower⟩

/-- A BSON ObjectId, identified with its 24-character hexadecimal string form
(`str(oid)` is `.val`, and `ObjectId(str(oid))` round-trips). -/
structure OId where
  val : String
deriving DecidableEq, Repr

/-- `str(oid)`. -/
def oidStr (o : OId) : String := o.val

/-- Hexadecimal digit test for ObjectId string validation. -/
def isHexChar (c : Char) : Bool :=
  c.isDigit || (('a' ≤ c) && (c ≤ 'f')) || (('A' ≤ c) && (c ≤ 'F'))

/-- `ObjectId(s)` applied to an untrusted string: succeeds exactly on
24-character hex strings, otherwise raises (modelled as `none`). -/
def parseOId (s : String) : Option OId :=
  if s.length == 24 && s.data.all isHexChar then some ⟨s⟩ else none

/-- A document of the `users` collection.  `username` is `Option` because the
profile handler can `$set` it to the unstripped form value, which is null when
the field is absent from the form; signup always stores a string.  The
`role` field is null (`none`) at signup and a string after role selection.
Optional profile fields are `none` until set (Mongo's distinction between an
absent field and a null value is collapsed; no in-scope behaviour depends on
it). -/
structure UserDoc where
  _id : OId
  username : Option String
  email : String
  password_hash : String
  created_at : Nat
  role : Option String
  phone : Option String := none
  shop_location : Option String := none
  operation_hours : Option String := none
deriving DecidableEq, Repr

/-- `User.username` property: `user_doc.get("username", "")`. -/
def userUsername (d : UserDoc) : String := d.username.getD ""

/-- A document of the `cafes` collection (only `_id` and `name` are read by the
in-scope handlers). -/
structure CafeDoc where
  _id : OId
  name : String
deriving DecidableEq, Repr

/-- A document of the `reviews` collection. -/
structure ReviewDoc where
  _id : OId
  cafe_id : OId
  user_id : OId
  username : String
  rating : Nat
  text : String
  created_at : Nat
deriving DecidableEq, Repr

/-- The document store state visible to the in-scope handlers. -/
structure AppState where
  users : List UserDoc
  cafes : List CafeDoc
  reviews : List ReviewDoc
deriving DecidableEq, Repr

/-- `update_one(filter, set)`: applies `f` to the first document matching `p`,
leaving the rest unchanged. -/
def updateFirst (p : α → Bool) (f : α → α) : List α → List α
  | [] => []
  | x :: xs => if p x then f x :: xs else x :: updateFirst p f xs

/-- `delete_one(filter)`: removes the first document matching `p`. -/
def deleteFirst (p : α → Bool) : List α → List α
  | [] => []
  | x :: xs => if p x then xs else x :: deleteFirst p xs

/-- A handler response: `redirect(url_for(...))` or `render_template(...)`. -/
inductive Resp where
  | redirect (url : String)
  | render (template : String)
deriving DecidableEq, Repr

/-- Result of running one handler: the state after its store writes, the flash
messages it emitted (message, category), and its response. -/
structure HRes where
  st : AppState
  flashes : List (String × String)
  resp : Resp
deriving DecidableEq, Repr

/-- URL of the café detail page (`url_for("cafe_detail", cafe_id=...)`). -/
def cafeDetailUrl (cafe_id : String) : String := "/cafe/" ++ cafe_id

/-- `load_user` (`@login_manager.user_loader`): resolve a session-embedded user
identifier to a user document.  `find` is the `users` collection lookup, which
may itself fail (`Except.error`); the handler's `try/except` catches both a
malformed ObjectId and a store failure and returns `None`. -/
def load_user (find : OId → Except String (Option UserDoc)) (user_id : String) :
    Option UserDoc :=
  match parseOId user_id with
  | none => none
  | some oid =>
    match find oid with
    | .error _ => none
    | .ok none => none
    | .ok (some doc) => some doc

/-- The validation cascade of the signup handler (`error` after the
`if/elif` chain), applied to the already-stripped username, the
stripped-and-lowercased email, and the raw password. -/
def signupError (st : AppState) (username email password : String) : Option String :=
  if username = "" then some "Username is required."
  else if email = "" then some "Email is required."
  else if password = "" then some "Password is required."
  else if password.length < 6 then some "Password must be at least 6 characters."
  else if (st.users.find? (fun u => u.email == email)).isSome then
    some "An account with that email already exists."
  else if (st.users.find? (fun u => u.username == some username)).isSome then
    some "That username is already taken."
  else none

/-- The signup handler (POST branch).  `gen` is `generate_password_hash`,
`newId` the `_id` Mongo assigns at `insert_one`, `now` the `utcnow` timestamp. -/
def signup (st : AppState) (usernameRaw emailRaw passwordRaw : String)
    (gen : String → String) (newId : OId) (now : Nat) : HRes :=
  let username := pyStrip usernameRaw
  let email := pyLower (pyStrip emailRaw)
  let password := passwordRaw
  match signupError st username email password with
  | some err => ⟨st, [(err, "error")], .render "signup.html"⟩
  | none =>
    let new_user : UserDoc :=
      { _id := newId, username := some username, email := email,
        password_hash := gen password, created_at := now, role := none }
    ⟨{ st with users := st.users ++ [new_user] },
     [("Welcome to Sips, " ++ username ++ "!", "success")],
     .redirect "/select-role"⟩

/-- The role-selection handler (POST branch).  `current` is the authenticated
user's document; `role` is `request.form.get("role")` (absent form field is
`none`). -/
def select_role (st : AppState) (current : UserDoc) (role : Option String) : HRes :=
  match role with
  | some r =>
    if r == "customer" || r == "owner" then
      ⟨{ st with
          users := updateFirst (fun u => u._id == current._id)
            (fun u => { u with role := some r }) st.users },
       [("Account set up as " ++ pyCapitalize r ++ "!", "success")],
       .redirect "/home"⟩
    else ⟨st, [], .render "select_role.html"⟩
  | none => ⟨st, [], .render "select_role.html"⟩

/-- The login handler (POST branch).  `check` is `check_password_hash`;
`nextPage` is `request.args.get("next")`. -/
def login (check : String → String → Bool) (st : AppState)
    (emailRaw passwordRaw : String) (nextPage : Option String) : HRes :=
  let email := pyLower (pyStrip emailRaw)
  let password := passwordRaw
  match st.users.find? (fun u => u.email == email) with
  | none => ⟨st, [("Invalid email or password.", "error")], .render "login.html"⟩
  | some user_doc =>
    if check user_doc.password_hash password then
      ⟨st, [("Welcome back, " ++ userUsername user_doc ++ "!", "success")],
       .redirect ((nextPage.filter (· ≠ "")).getD "/home")⟩
    else ⟨st, [("Invalid email or password.", "error")], .render "login.html"⟩

/-- One step of the store's regular-expression engine: does pattern `pat`
match a prefix of `s`?  This models only the PCRE fragment in which the
pattern consists of literal characters and the `.` wildcard (any single
character), with `$options: "i"` case-insensitivity folded in (ASCII); it is
faithful to the store exactly on that fragment.  Patterns using other PCRE
metacharacters (`*`, `+`, `?`, `(`, `[`, anchors, …) are outside the model,
and no theorem below relies on this function's value at such a pattern. -/
def reMatchAt : List Char → List Char → Bool
  | [], _ => true
  | _ :: _, [] => false
  | p :: ps, c :: cs => (p == '.' || p.toLower == c.toLower) && reMatchAt ps cs

/-- Unanchored case-insensitive regex search, as the store performs for
`name: $regex query, $options i`: the pattern matches at some position.
Like `reMatchAt`, faithful on (and relied upon only for) patterns of literal
characters and the `.` wildcard. -/
def reSearch (pat : List Char) (s : List Char) : Bool :=
  reMatchAt pat s ||
    match s with
    | [] => false
    | _ :: cs => reSearch pat cs

/-- The search handler.  `q` is `request.args.get("q")` (absent parameter is
`none`); an empty or absent query leaves `cafes = []`, a non-empty query asks
the store for the cafés whose name matches it as a case-insensitive regex.
Returns the café list passed to the template. -/
def search (st : AppState) (q : Option String) : List CafeDoc :=
  let query := (q.getD "")
  if query = "" then []
  else st.cafes.filter (fun c => reSearch query.data c.name.data)

/-- From the spec's words: case-insensitive prefix comparison of character
lists (every pattern character matches itself, no wildcard). -/
def ciPrefixAt : List Char → List Char → Bool
  | [], _ => true
  | _ :: _, [] => false
  | p :: ps, c :: cs => (p.toLower == c.toLower) && ciPrefixAt ps cs

/-- From the spec's words: `name` contains `q` as a case-insensitive
substring. -/
def ciSubstring (q : List Char) (s : List Char) : Bool :=
  ciPrefixAt q s ||
    match s with
    | [] => false
    | _ :: cs => ciSubstring q cs

/-- From the spec's words: the search result the spec promises for a
non-empty query — exactly the cafés whose name contains the query as a
case-insensitive substring. -/
def specSearch (st : AppState) (q : String) : List CafeDoc :=
  st.cafes.filter (fun c => ciSubstring q.data c.name.data)

/-- The PCRE metacharacters: a query containing none of these is matched by
the store's regex engine exactly as a literal (here: case-insensitive)
substring search. -/
def isRegexMeta (c : Char) : Bool :=
  c == '\\' || c == '^' || c == '$' || c == '.' || c == '|' || c == '?' ||
  c == '*' || c == '+' || c == '(' || c == ')' || c == '[' || c == ']' ||
  c == '\x7b' || c == '\x7d'

/-- The add-review handler (`POST /cafe/<cafe_id>/review`).  `current` is the
authenticated user's document; `formRating`/`formText` are
`request.form.get("rating")`/`("text")` before the `""` default; `newId` and
`now` are the inserted document's `_id` and `utcnow`. -/
def add_review (st : AppState) (current : UserDoc) (cafe_id : String)
    (formRating formText : Option String) (newId : OId) (now : Nat) : HRes :=
  match parseOId cafe_id with
  | none => ⟨st, [("Invalid cafe link.", "error")], .redirect "/home"⟩
  | some cafe_obj_id =>
    match st.cafes.find? (fun c => c._id == cafe_obj_id) with
    | none => ⟨st, [("Cafe not found.", "error")], .redirect "/home"⟩
    | some _cafe =>
      let rating_str := pyStrip (formRating.getD "")
      let text := pyStrip (formText.getD "")
      if !pyIsdigit rating_str then
        ⟨st, [("Rating must be a number from 1 to 5.", "error")],
         .redirect (cafeDetailUrl cafe_id)⟩
      else
        let rating := pyIntNat rating_str
        if rating < 1 || rating > 5 then
          ⟨st, [("Rating must be between 1 and 5.", "error")],
           .redirect (cafeDetailUrl cafe_id)⟩
        else if text = "" then
          ⟨st, [("Review text cannot be empty.", "error")],
           .redirect (cafeDetailUrl cafe_id)⟩
        else
          ⟨{ st with reviews := st.reviews ++
              [{ _id := newId, cafe_id := cafe_obj_id, user_id := current._id,
                 username := userUsername current, rating := rating,
                 text := text, created_at := now }] },
           [("Review posted!", "success")], .redirect (cafeDetailUrl cafe_id)⟩

/-- The delete-review handler (`POST /review/<review_id>/delete`). -/
def delete_review (st : AppState) (current : UserDoc) (review_id : String) : HRes :=
  match parseOId review_id with
  | none => ⟨st, [("Invalid review.", "error")], .redirect "/home"⟩
  | some rid =>
    match st.reviews.find? (fun r => r._id == rid) with
    | none => ⟨st, [("Review not found.", "error")], .redirect "/home"⟩
    | some review =>
      if oidStr review.user_id != oidStr current._id then
        ⟨st, [("You can only delete your own review.", "error")],
         .redirect (cafeDetailUrl (oidStr review.cafe_id))⟩
      else
        ⟨{ st with reviews := deleteFirst (fun r => r._id == rid) st.reviews },
         [("Review deleted.", "success")],
         .redirect (cafeDetailUrl (oidStr review.cafe_id))⟩

/-- The flash text of the edit handler's non-numeric-rating rejection,
reproduced byte-for-byte from the source (the dash is mis-encoded there). -/
def editRatingDigitMsg : String := "Rating must be a number 1â€“5."

/-- The edit-review handler (`POST /review/<review_id>/edit`). -/
def edit_review (st : AppState) (current : UserDoc) (review_id : String)
    (formRating formText : Option String) : HRes :=
  match parseOId review_id with
  | none => ⟨st, [("Invalid review.", "error")], .redirect "/home"⟩
  | some rid =>
    match st.reviews.find? (fun r => r._id == rid) with
    | none => ⟨st, [("Review not found.", "error")], .redirect "/home"⟩
    | some review =>
      if oidStr review.user_id != oidStr current._id then
        ⟨st, [("You can only edit your own review.", "error")],
         .redirect (cafeDetailUrl (oidStr review.cafe_id))⟩
      else
        let rating_str := pyStrip (formRating.getD "")
        let text := pyStrip (formText.getD "")
        if !pyIsdigit rating_str then
          ⟨st, [(editRatingDigitMsg, "error")],
           .redirect (cafeDetailUrl (oidStr review.cafe_id))⟩
        else
          let rating := pyIntNat rating_str
          if rating < 1 || rating > 5 then
            ⟨st, [("Rating must be between 1 and 5.", "error")],
             .redirect (cafeDetailUrl (oidStr review.cafe_id))⟩
          else if text = "" then
            ⟨st, [("Review text cannot be empty.", "error")],
             .redirect (cafeDetailUrl (oidStr review.cafe_id))⟩
          else
            let reviews' := updateFirst (fun r => r._id == rid)
              (fun r => { r with rating := rating, text := text }) st.reviews
            ⟨{ st with reviews := reviews' }, [("Review updated.", "success")],
             .redirect (cafeDetailUrl (oidStr review.cafe_id))⟩

/-- The profile handler (POST branch).  The four `Option String` arguments are
the raw `request.form.get` values (no default, no stripping); the owner-only
fields are included in the `$set` exactly when the current user's `role`
property equals `"owner"` (a null or absent role reads as non-owner). -/
def profile (st : AppState) (current : UserDoc)
    (formUsername formPhone formShopLocation formOperationHours : Option String) :
    HRes :=
  let updateDoc := fun (u : UserDoc) =>
    let u' := { u with username := formUsername, phone := formPhone }
    if current.role == some "owner" then
      { u' with shop_location := formShopLocation,
                operation_hours := formOperationHours }
    else u'
  ⟨{ st with users := updateFirst (fun u => u._id == current._id) updateDoc st.users },
   [("Profile updated successfully!", "success")], .redirect "/settings"⟩

/-- From the spec's words: the submitted rating is an integer-valued string
whose value lies in [1,5].  `int()` semantics on the claim's side: optional
sign after stripping whitespace, then digits. -/
def specIntValue (s : String) : Option Int :=
  let t := (pyStrip s).data
  if t.headD ' ' == '-' then
    let r := t.tail
    if !r.isEmpty && r.all Char.isDigit then some (-(digitsVal r : Int)) else none
  else if t.headD ' ' == '+' then
    let r := t.tail
    if !r.isEmpty && r.all Char.isDigit then some ((digitsVal r : Int)) else none
  else if !t.isEmpty && t.all Char.isDigit then some ((digitsVal t : Int)) else none

/-- From the spec's words: the rating form value passes the spec's review
validation — an integer-valued string whose value lies in [1,5]. -/
def specRatingOk (s : String) : Bool :=
  match specIntValue s with
  | some n => decide (1 ≤ n) && decide (n ≤ 5)
  | none => false

/-- The specific rejection messages the add-review handler can flash. -/
def addReviewErrMsgs : List String :=
  ["Invalid cafe link.", "Cafe not found.", "Rating must be a number from 1 to 5.",
   "Rating must be between 1 and 5.", "Review text cannot be empty."]

/-- The specific rejection messages the edit-review handler can flash. -/
def editReviewErrMsgs : List String :=
  ["Invalid review.", "Review not found.", "You can only edit your own review.",
   editRatingDigitMsg, "Rating must be between 1 and 5.", "Review text cannot be empty."]

/-- The spec's invariant that no two user records share a username. -/
def usernamesUnique (users : List UserDoc) : Prop :=
  (users.map (fun u => u.username)).Nodup

/-- The spec's invariant that no two user records share an email. -/
def emailsUnique (users : List UserDoc) : Prop :=
  (users.map (fun u => u.email)).Nodup

instance (users : List UserDoc) : Decidable (usernamesUnique users) :=
  inferInstanceAs (Decidable (List.Nodup _))

instance (users : List UserDoc) : Decidable (emailsUnique users) :=
  inferInstanceAs (Decidable (List.Nodup _))

/-! Concrete fixtures used by witness and counterexample theorems. -/

/-- A concrete ObjectId. -/
def oidA : OId := ⟨"aaaaaaaaaaaaaaaaaaaaaaaa"⟩

/-- A concrete ObjectId. -/
def oidB : OId := ⟨"bbbbbbbbbbbbbbbbbbbbbbbb"⟩

/-- A concrete ObjectId. -/
def oidC : OId := ⟨"cccccccccccccccccccccccc"⟩

/-- A concrete ObjectId. -/
def oidE : OId := ⟨"eeeeeeeeeeeeeeeeeeeeeeee"⟩

/-- A concrete user record. -/
def uAlice : UserDoc :=
  { _id := oidA, username := some "alice", email := "a@x.com",
    password_hash := "h1", created_at := 0, role := none }

/-- A concrete user record. -/
def uBob : UserDoc :=
  { _id := oidB, username := some "bob", email := "b@x.com",
    password_hash := "h2", created_at := 0, role := some "customer" }

/-- A concrete café record. -/
def cafeBlue : CafeDoc := ⟨oidC, "Blue Bottle"⟩

/-- A concrete review record, authored by `uAlice` on `cafeBlue`. -/
def rev1 : ReviewDoc :=
  { _id := oidE, cafe_id := oidC, user_id := oidA, username := "alice",
    rating := 4, text := "nice", created_at := 0 }

/-- A concrete application state: two users, one café, one review by alice. -/
def stDemo : AppState := ⟨[uAlice, uBob], [cafeBlue], [rev1]⟩

/-! Helper lemmas. -/

/-- `updateFirst` does not change any projection `g` that `f` preserves. -/
theorem updateFirst_map_eq (g : α → β) (p : α → Bool) (f : α → α)
    (hgf : ∀ x, g (f x) = g x) (l : List α) :
    (updateFirst p f l).map g = l.map g := by
  induction l with
  | nil => rfl
  | cons x xs ih =>
    by_cases hx : p x
    · simp [updateFirst, hx, hgf]
    · simp [updateFirst, hx, ih]

/-- Finding with the same predicate after `updateFirst` yields the updated
document, provided `f` preserves the predicate. -/
theorem updateFirst_find? (p : α → Bool) (f : α → α)
    (hpf : ∀ x, p (f x) = p x) (l : List α) :
    (updateFirst p f l).find? p = (l.find? p).map f := by
  induction l with
  | nil => rfl
  | cons x xs ih =>
    by_cases hx : p x
    · simp [updateFirst, hx, List.find?, hpf]
    · simp [updateFirst, hx, List.find?, ih]

/-- If the code-side rating checks pass (digit string whose value is in
[1,5]), the spec-side check passes as well. -/
theorem specRatingOk_of_code (s : String)
    (hd : pyIsdigit (pyStrip s) = true)
    (h1 : 1 ≤ pyIntNat (pyStrip s)) (h5 : pyIntNat (pyStrip s) ≤ 5) :
    specRatingOk s = true := by
  unfold pyIsdigit at hd
  rw [Bool.and_eq_true] at hd
  obtain ⟨hne, hall⟩ := hd
  obtain ⟨c, cs, hcs⟩ : ∃ c cs, (pyStrip s).data = c :: cs := by
    cases h : (pyStrip s).data with
    | nil => rw [h] at hne; simp at hne
    | cons a as => exact ⟨a, as, rfl⟩
  have hcd : c.isDigit = true := by
    rw [hcs] at hall; simp only [List.all_cons, Bool.and_eq_true] at hall
    exact hall.1
  have hminus : (c == '-') = false := by
    rcases h : (c == '-') with _ | _
    · rfl
    · exact absurd (beq_iff_eq.mp h ▸ hcd) (by decide)
  have hplus : (c == '+') = false := by
    rcases h : (c == '+') with _ | _
    · rfl
    · exact absurd (beq_iff_eq.mp h ▸ hcd) (by decide)
  have hallc : (c :: cs).all Char.isDigit = true := hcs ▸ hall
  have hn1 : (1 : Int) ≤ (digitsVal (c :: cs) : Int) := by
    have := h1; unfold pyIntNat at this; rw [hcs] at this; exact_mod_cast this
  have hn5 : (digitsVal (c :: cs) : Int) ≤ 5 := by
    have := h5; unfold pyIntNat at this; rw [hcs] at this; exact_mod_cast this
  unfold specRatingOk specIntValue
  rw [hcs]
  simp [hminus, hplus, hallc, hn1, hn5]

/-! Claim theorems. -/

/-- C9: identity resolution fails closed.  For every session-embedded user
identifier, `load_user` either yields the full user record or returns
anonymous (`none`): a malformed identifier, a store failure, and a missing
record each resolve to `none`, and a non-anonymous result can only arise from
a successful parse and a successful lookup (the failure is never propagated —
the function is total with an `Option` result). -/
theorem load_user_fails_closed (find : OId → Except String (Option UserDoc))
    (user_id : String) :
    (parseOId user_id = none → load_user find user_id = none) ∧
    (∀ oid e, parseOId user_id = some oid → find oid = .error e →
       load_user find user_id = none) ∧
    (∀ oid, parseOId user_id = some oid → find oid = .ok none →
       load_user find user_id = none) ∧
    (∀ d, load_user find user_id = some d →
       ∃ oid, parseOId user_id = some oid ∧ find oid = .ok (some d)) := by
  have key : ∀ oid, parseOId user_id = some oid →
      load_user find user_id =
        (match find oid with
         | .error _ => none
         | .ok none => none
         | .ok (some doc) => some doc) := by
    intro oid hp
    unfold load_user
    rw [hp]
  refine ⟨?_, ?_, ?_, ?_⟩
  · intro h; unfold load_user; rw [h]
  · intro oid e hp hf; rw [key oid hp, hf]
  · intro oid hp hf; rw [key oid hp, hf]
  · intro d h
    cases hp : parseOId user_id with
    | none =>
      rw [show load_user find user_id = none from by unfold load_user; rw [hp]] at h
      cases h
    | some oid =>
      rw [key oid hp] at h
      cases hf : find oid with
      | error e => rw [hf] at h; cases h
      | ok o =>
        cases o with
        | none => rw [hf] at h; cases h
        | some dd =>
          rw [hf] at h
          injection h with h
          exact ⟨oid, rfl, by rw [hf, h]⟩

/-- Witness for C9: a malformed identifier resolves to anonymous. -/
theorem load_user_fails_closed_witness :
    parseOId "zzz" = none ∧
    load_user (fun _ => Except.ok none) "zzz" = none :=
  ⟨by rfl, (load_user_fails_closed (fun _ => Except.ok none) "zzz").1 (by rfl)⟩

/-- C5: the two login failure causes are indistinguishable.  For a login
attempt whose email matches no stored user and one whose email matches a user
but whose password fails the hash check, the handler flashes exactly the same
single generic failure message. -/
theorem login_failures_indistinguishable (check : String → String → Bool)
    (st : AppState) (e1 p1 e2 p2 : String) (n1 n2 : Option String) (u : UserDoc)
    (h1 : st.users.find? (fun x => x.email == pyLower (pyStrip e1)) = none)
    (h2 : st.users.find? (fun x => x.email == pyLower (pyStrip e2)) = some u)
    (h3 : check u.password_hash p2 = false) :
    (login check st e1 p1 n1).flashes = [("Invalid email or password.", "error")] ∧
    (login check st e2 p2 n2).flashes = (login check st e1 p1 n1).flashes := by
  have hA : login check st e1 p1 n1 =
      ⟨st, [("Invalid email or password.", "error")], .render "login.html"⟩ := by
    simp only [login]
    rw [h1]
  have hB : login check st e2 p2 n2 =
      ⟨st, [("Invalid email or password.", "error")], .render "login.html"⟩ := by
    simp only [login]
    rw [h2]
    simp [h3]
  rw [hA, hB]
  exact ⟨rfl, rfl⟩

/-- Witness for C5: unknown email `nobody@x.com` and wrong password for
`a@x.com` produce the identical flash list. -/
theorem login_failures_indistinguishable_witness :
    stDemo.users.find? (fun x => x.email == pyLower (pyStrip "nobody@x.com")) = none ∧
    stDemo.users.find? (fun x => x.email == pyLower (pyStrip "a@x.com")) = some uAlice ∧
    (fun (h p : String) => h == p) uAlice.password_hash "wrong" = false ∧
    ((login (fun h p => h == p) stDemo "nobody@x.com" "pw" none).flashes =
       [("Invalid email or password.", "error")] ∧
     (login (fun h p => h == p) stDemo "a@x.com" "wrong" none).flashes =
       (login (fun h p => h == p) stDemo "nobody@x.com" "pw" none).flashes) :=
  ⟨by rfl, by rfl, by rfl,
   login_failures_indistinguishable (fun h p => h == p) stDemo
     "nobody@x.com" "pw" "a@x.com" "wrong" none none uAlice
     (by rfl) (by rfl) (by rfl)⟩

/-- C1: only the author may edit or delete a review.  If the review resolves
but is owned by a different user identifier (string comparison), both the
delete and the edit handler leave the entire state unchanged, flash an
authorization error, and redirect to the detail page of the review's café. -/
theorem review_mutation_requires_author (st : AppState) (current : UserDoc)
    (review_id : String) (formRating formText : Option String)
    (rid : OId) (r : ReviewDoc)
    (hp : parseOId review_id = some rid)
    (hf : st.reviews.find? (fun x => x._id == rid) = some r)
    (hne : oidStr r.user_id ≠ oidStr current._id) :
    delete_review st current review_id =
      ⟨st, [("You can only delete your own review.", "error")],
       .redirect (cafeDetailUrl (oidStr r.cafe_id))⟩ ∧
    edit_review st current review_id formRating formText =
      ⟨st, [("You can only edit your own review.", "error")],
       .redirect (cafeDetailUrl (oidStr r.cafe_id))⟩ := by
  have hbne : (oidStr r.user_id != oidStr current._id) = true := bne_iff_ne.mpr hne
  constructor
  · simp only [delete_review, hp, hf]
    rw [if_pos hbne]
  · simp only [edit_review, hp, hf]
    rw [if_pos hbne]

/-- Witness for C1: bob attempting to delete or edit alice's review is
refused with the state unchanged. -/
theorem review_mutation_requires_author_witness :
    parseOId (oidStr oidE) = some oidE ∧
    stDemo.reviews.find? (fun x => x._id == oidE) = some rev1 ∧
    oidStr rev1.user_id ≠ oidStr uBob._id ∧
    (delete_review stDemo uBob (oidStr oidE) =
       ⟨stDemo, [("You can only delete your own review.", "error")],
        .redirect (cafeDetailUrl (oidStr rev1.cafe_id))⟩ ∧
     edit_review stDemo uBob (oidStr oidE) (some "1") (some "bad") =
       ⟨stDemo, [("You can only edit your own review.", "error")],
        .redirect (cafeDetailUrl (oidStr rev1.cafe_id))⟩) :=
  ⟨by rfl, by rfl, by decide,
   review_mutation_requires_author stDemo uBob (oidStr oidE)
     (some "1") (some "bad") oidE rev1 (by rfl) (by rfl) (by decide)⟩

/-- C4: signup validation short-circuits on the first failure in exactly the
order: username non-empty, email non-empty, password non-empty, password
length ≥ 6, email not registered, username not registered; and any password
shorter than 6 characters leaves the user store unchanged regardless of its
content. -/
theorem signup_validation_order (st : AppState) (u e p uR eR pR : String)
    (gen : String → String) (newId : OId) (now : Nat) :
    (u = "" → signupError st u e p = some "Username is required.") ∧
    (u ≠ "" → e = "" → signupError st u e p = some "Email is required.") ∧
    (u ≠ "" → e ≠ "" → p = "" → signupError st u e p = some "Password is required.") ∧
    (u ≠ "" → e ≠ "" → p ≠ "" → p.length < 6 →
       signupError st u e p = some "Password must be at least 6 characters.") ∧
    (u ≠ "" → e ≠ "" → ¬p.length < 6 →
       (st.users.find? (fun x => x.email == e)).isSome = true →
       signupError st u e p = some "An account with that email already exists.") ∧
    (u ≠ "" → e ≠ "" → ¬p.length < 6 →
       (st.users.find? (fun x => x.email == e)).isSome = false →
       (st.users.find? (fun x => x.username == some u)).isSome = true →
       signupError st u e p = some "That username is already taken.") ∧
    (u ≠ "" → e ≠ "" → ¬p.length < 6 →
       (st.users.find? (fun x => x.email == e)).isSome = false →
       (st.users.find? (fun x => x.username == some u)).isSome = false →
       signupError st u e p = none) ∧
    (pR.length < 6 → (signup st uR eR pR gen newId now).st.users = st.users) := by
  have hlen_ne : ∀ q : String, ¬q.length < 6 → q ≠ "" := by
    intro q hq hq0
    subst hq0
    exact hq (by decide)
  refine ⟨?_, ?_, ?_, ?_, ?_, ?_, ?_, ?_⟩
  · intro h; simp [signupError, h]
  · intro h1 h2; simp [signupError, h1, h2]
  · intro h1 h2 h3; simp [signupError, h1, h2, h3]
  · intro h1 h2 h3 h4; simp [signupError, h1, h2, h3, h4]
  · intro h1 h2 h4 h5
    simp [signupError, h1, h2, hlen_ne p h4, h4, h5]
  · intro h1 h2 h4 h5 h6
    simp [signupError, h1, h2, hlen_ne p h4, h4, h5, h6]
  · intro h1 h2 h4 h5 h6
    simp [signupError, h1, h2, hlen_ne p h4, h4, h5, h6]
  · intro hlt
    cases herr : signupError st (pyStrip uR) (pyLower (pyStrip eR)) pR with
    | some m => simp only [signup, herr]
    | none =>
      exfalso
      unfold signupError at herr
      split_ifs at herr

/-- Witness for C4: the five-character password "abc12" is rejected without a
store write, and an empty username yields the username message first. -/
theorem signup_validation_order_witness :
    ("" = "" → signupError stDemo "" "e@x.com" "abc12" = some "Username is required.") ∧
    ("abc12".length < 6 ∧
     (signup stDemo "newbie" "new@x.com" "abc12" (fun q => q) oidE 3).st.users =
       stDemo.users) :=
  ⟨(signup_validation_order stDemo "" "e@x.com" "abc12" "newbie" "new@x.com" "abc12"
      (fun q => q) oidE 3).1,
   by decide,
   (signup_validation_order stDemo "" "e@x.com" "abc12" "newbie" "new@x.com" "abc12"
      (fun q => q) oidE 3).2.2.2.2.2.2.2 (by decide)⟩

/-- C3: signup never partially writes.  On any validation failure the store is
unchanged and the error is flashed; the user store can only change when every
validation passed; and when the earlier field checks pass, a duplicate email
or a duplicate username is rejected with its "already exists" message. -/
theorem signup_no_insert_on_failure (st : AppState) (uR eR pR : String)
    (gen : String → String) (newId : OId) (now : Nat) :
    (∀ m, signupError st (pyStrip uR) (pyLower (pyStrip eR)) pR = some m →
       (signup st uR eR pR gen newId now).st = st ∧
       (signup st uR eR pR gen newId now).flashes = [(m, "error")] ∧
       (signup st uR eR pR gen newId now).resp = .render "signup.html") ∧
    ((signup st uR eR pR gen newId now).st.users ≠ st.users →
       signupError st (pyStrip uR) (pyLower (pyStrip eR)) pR = none) ∧
    (pyStrip uR ≠ "" → pyLower (pyStrip eR) ≠ "" → ¬pR.length < 6 →
       (st.users.find? (fun x => x.email == pyLower (pyStrip eR))).isSome = true →
       (signup st uR eR pR gen newId now).st = st ∧
       (signup st uR eR pR gen newId now).flashes =
         [("An account with that email already exists.", "error")]) ∧
    (pyStrip uR ≠ "" → pyLower (pyStrip eR) ≠ "" → ¬pR.length < 6 →
       (st.users.find? (fun x => x.email == pyLower (pyStrip eR))).isSome = false →
       (st.users.find? (fun x => x.username == some (pyStrip uR))).isSome = true →
       (signup st uR eR pR gen newId now).st = st ∧
       (signup st uR eR pR gen newId now).flashes =
         [("That username is already taken.", "error")]) := by
  have key : ∀ m, signupError st (pyStrip uR) (pyLower (pyStrip eR)) pR = some m →
      signup st uR eR pR gen newId now =
        ⟨st, [(m, "error")], .render "signup.html"⟩ := by
    intro m hm
    simp only [signup, hm]
  have hlen_ne : ¬pR.length < 6 → pR ≠ "" := by
    intro hq hq0
    rw [hq0] at hq
    exact hq (by decide)
  refine ⟨?_, ?_, ?_, ?_⟩
  · intro m hm
    rw [key m hm]
    exact ⟨rfl, rfl, rfl⟩
  · intro hne
    cases herr : signupError st (pyStrip uR) (pyLower (pyStrip eR)) pR with
    | none => rfl
    | some m => exact absurd (by rw [key m herr] : (signup st uR eR pR gen newId now).st.users = st.users) hne
  · intro h1 h2 h4 h5
    have herr : signupError st (pyStrip uR) (pyLower (pyStrip eR)) pR =
        some "An account with that email already exists." := by
      simp [signupError, h1, h2, hlen_ne h4, h4, h5]
    rw [key _ herr]
    exact ⟨rfl, rfl⟩
  · intro h1 h2 h4 h5 h6
    have herr : signupError st (pyStrip uR) (pyLower (pyStrip eR)) pR =
        some "That username is already taken." := by
      simp [signupError, h1, h2, hlen_ne h4, h4, h5, h6]
    rw [key _ herr]
    exact ⟨rfl, rfl⟩

/-- Witness for C3: signing up with the already-registered email `a@x.com`
leaves the store unchanged and flashes the duplicate-email message. -/
theorem signup_no_insert_on_failure_witness :
    (pyStrip "newbie" ≠ "" ∧ pyLower (pyStrip "a@x.com") ≠ "" ∧
     ¬("secret1" : String).length < 6 ∧
     (stDemo.users.find? (fun x => x.email == pyLower (pyStrip "a@x.com"))).isSome = true) ∧
    ((signup stDemo "newbie" "a@x.com" "secret1" (fun q => q) oidE 3).st = stDemo ∧
     (signup stDemo "newbie" "a@x.com" "secret1" (fun q => q) oidE 3).flashes =
       [("An account with that email already exists.", "error")]) :=
  ⟨⟨by decide, by decide, by decide, by decide⟩,
   (signup_no_insert_on_failure stDemo "newbie" "a@x.com" "secret1"
      (fun q => q) oidE 3).2.2.1 (by decide) (by decide) (by decide) (by decide)⟩

/-- C10: signup trims the submitted username and trims-and-lowercases the
submitted email before validation and storage: a whitespace-only username or
email is rejected as empty, and any user record signup adds stores the
trimmed username and the trimmed, lowercased email. -/
theorem signup_normalizes_username_email (st : AppState) (uR eR pR : String)
    (gen : String → String) (newId : OId) (now : Nat) :
    (pyStrip uR = "" →
       (signup st uR eR pR gen newId now).st = st ∧
       (signup st uR eR pR gen newId now).flashes =
         [("Username is required.", "error")]) ∧
    (pyStrip eR = "" →
       (signup st uR eR pR gen newId now).st = st ∧
       ((signup st uR eR pR gen newId now).flashes =
          [("Username is required.", "error")] ∨
        (signup st uR eR pR gen newId now).flashes =
          [("Email is required.", "error")])) ∧
    (∀ x, x ∈ (signup st uR eR pR gen newId now).st.users →
       x ∈ st.users ∨
       (x.username = some (pyStrip uR) ∧ x.email = pyLower (pyStrip eR))) := by
  have key : ∀ m, signupError st (pyStrip uR) (pyLower (pyStrip eR)) pR = some m →
      signup st uR eR pR gen newId now =
        ⟨st, [(m, "error")], .render "signup.html"⟩ := by
    intro m hm
    simp only [signup, hm]
  refine ⟨?_, ?_, ?_⟩
  · intro h
    have herr : signupError st (pyStrip uR) (pyLower (pyStrip eR)) pR =
        some "Username is required." := by
      simp [signupError, h]
    rw [key _ herr]
    exact ⟨rfl, rfl⟩
  · intro h
    have he : pyLower (pyStrip eR) = "" := by rw [h]; rfl
    by_cases hu : pyStrip uR = ""
    · have herr : signupError st (pyStrip uR) (pyLower (pyStrip eR)) pR =
          some "Username is required." := by
        simp [signupError, hu]
      rw [key _ herr]
      exact ⟨rfl, Or.inl rfl⟩
    · have herr : signupError st (pyStrip uR) (pyLower (pyStrip eR)) pR =
          some "Email is required." := by
        simp [signupError, hu, he]
      rw [key _ herr]
      exact ⟨rfl, Or.inr rfl⟩
  · intro x hx
    cases herr : signupError st (pyStrip uR) (pyLower (pyStrip eR)) pR with
    | some m =>
      rw [key m herr] at hx
      exact Or.inl hx
    | none =>
      have hs : (signup st uR eR pR gen newId now).st.users =
          st.users ++ [{ _id := newId, username := some (pyStrip uR),
                         email := pyLower (pyStrip eR),
                         password_hash := gen pR, created_at := now,
                         role := none }] := by
        simp only [signup, herr]
      rw [hs] at hx
      rcases List.mem_append.mp hx with hA | hB
      · exact Or.inl hA
      · rcases List.mem_singleton.mp hB with rfl
        exact Or.inr ⟨rfl, rfl⟩

/-- Witness for C10: a whitespace-only username is rejected as empty, and the
record created from padded mixed-case input is stored trimmed and
lowercased. -/
theorem signup_normalizes_username_email_witness :
    (pyStrip "   " = "" ∧
     (signup stDemo "   " "x@y.com" "secret1" (fun q => q) oidE 3).st = stDemo ∧
     (signup stDemo "   " "x@y.com" "secret1" (fun q => q) oidE 3).flashes =
       [("Username is required.", "error")]) ∧
    (∀ x, x ∈ (signup stDemo " Carol " " C@X.com " "secret1" (fun q => q) oidE 3).st.users →
       x ∈ stDemo.users ∨
       (x.username = some (pyStrip " Carol ") ∧ x.email = pyLower (pyStrip " C@X.com "))) :=
  ⟨⟨by decide,
    (signup_normalizes_username_email stDemo "   " "x@y.com" "secret1"
       (fun q => q) oidE 3).1 (by decide)⟩,
   (signup_normalizes_username_email stDemo " Carol " " C@X.com " "secret1"
      (fun q => q) oidE 3).2.2⟩

/-- C8: role selection accepts exactly `customer` and `owner`.  An accepted
value updates the current user's role field to that value and redirects to
the main listing; any other submitted value (including an absent field) is a
silent no-op: the same form is re-rendered, no flash is emitted, and the
state — in particular the user's role — is unchanged. -/
theorem select_role_accepts_only_valid (st : AppState) (current : UserDoc)
    (role : Option String) (d : UserDoc) :
    (∀ r, role = some r → (r = "customer" ∨ r = "owner") →
       (select_role st current role).resp = .redirect "/home" ∧
       (select_role st current role).flashes =
         [("Account set up as " ++ pyCapitalize r ++ "!", "success")] ∧
       (select_role st current role).st.cafes = st.cafes ∧
       (select_role st current role).st.reviews = st.reviews ∧
       (st.users.find? (fun u => u._id == current._id) = some d →
          (select_role st current role).st.users.find? (fun u => u._id == current._id) =
            some { d with role := some r })) ∧
    ((∀ r, role = some r → r ≠ "customer" ∧ r ≠ "owner") →
       select_role st current role = ⟨st, [], .render "select_role.html"⟩) := by
  constructor
  · rintro r rfl (rfl | rfl) <;>
      refine ⟨rfl, rfl, rfl, rfl, fun hfind => ?_⟩
    · show (updateFirst (fun u => u._id == current._id)
          (fun u => { u with role := some "customer" }) st.users).find?
          (fun u => u._id == current._id) = _
      rw [updateFirst_find? (fun u : UserDoc => u._id == current._id)
        (fun u : UserDoc => { u with role := some "customer" }) (fun x => rfl), hfind]
      rfl
    · show (updateFirst (fun u => u._id == current._id)
          (fun u => { u with role := some "owner" }) st.users).find?
          (fun u => u._id == current._id) = _
      rw [updateFirst_find? (fun u : UserDoc => u._id == current._id)
        (fun u : UserDoc => { u with role := some "owner" }) (fun x => rfl), hfind]
      rfl
  · intro hinv
    cases role with
    | none => rfl
    | some r =>
      have hr := hinv r rfl
      have h1 : (r == "customer") = false := beq_eq_false_iff_ne.mpr hr.1
      have h2 : (r == "owner") = false := beq_eq_false_iff_ne.mpr hr.2
      simp [select_role, h1, h2]

/-- Witness for C8: alice submitting `owner` gets the redirect and the updated
role field; alice submitting `admin` is a silent no-op. -/
theorem select_role_accepts_only_valid_witness :
    ((select_role stDemo uAlice (some "owner")).resp = .redirect "/home" ∧
     (select_role stDemo uAlice (some "owner")).st.users.find?
       (fun u => u._id == uAlice._id) = some { uAlice with role := some "owner" }) ∧
    select_role stDemo uAlice (some "admin") = ⟨stDemo, [], .render "select_role.html"⟩ :=
  ⟨⟨((select_role_accepts_only_valid stDemo uAlice (some "owner") uAlice).1
       "owner" rfl (Or.inr rfl)).1,
    ((select_role_accepts_only_valid stDemo uAlice (some "owner") uAlice).1
       "owner" rfl (Or.inr rfl)).2.2.2.2 (by rfl)⟩,
   (select_role_accepts_only_valid stDemo uAlice (some "admin") uAlice).2
     (fun r hr => by cases hr; exact ⟨by decide, by decide⟩)⟩

/-- The profile handler never changes any user's email field. -/
theorem profile_preserves_email_map (st : AppState) (current : UserDoc)
    (fu fp fs fo : Option String) :
    ((profile st current fu fp fs fo).st.users).map (fun u => u.email) =
      st.users.map (fun u => u.email) := by
  simp only [profile]
  apply updateFirst_map_eq
  intro x
  by_cases hc : (current.role == some "owner") = true <;> simp [hc]

/-- C7 (amended): user-record uniqueness preservation.  Signup and role
selection preserve both username and email uniqueness, and the profile
update preserves email uniqueness.  (Profile update does not preserve
username uniqueness; see the counterexample.) -/
theorem user_uniqueness_preservation (st : AppState) (uR eR pR : String)
    (gen : String → String) (newId : OId) (now : Nat) (current : UserDoc)
    (role : Option String) (fu fp fs fo : Option String) :
    (usernamesUnique st.users →
       usernamesUnique (signup st uR eR pR gen newId now).st.users) ∧
    (emailsUnique st.users →
       emailsUnique (signup st uR eR pR gen newId now).st.users) ∧
    (usernamesUnique st.users →
       usernamesUnique (select_role st current role).st.users) ∧
    (emailsUnique st.users →
       emailsUnique (select_role st current role).st.users) ∧
    (emailsUnique st.users →
       emailsUnique (profile st current fu fp fs fo).st.users) := by
  have husers : ∀ h : signupError st (pyStrip uR) (pyLower (pyStrip eR)) pR = none,
      (signup st uR eR pR gen newId now).st.users =
        st.users ++ [{ _id := newId, username := some (pyStrip uR),
                       email := pyLower (pyStrip eR), password_hash := gen pR,
                       created_at := now, role := none }] := by
    intro h
    simp only [signup, h]
  refine ⟨?_, ?_, ?_, ?_, ?_⟩
  · intro h
    cases herr : signupError st (pyStrip uR) (pyLower (pyStrip eR)) pR with
    | some m => simp only [signup, herr]; exact h
    | none =>
      rw [husers herr]
      unfold usernamesUnique at h ⊢
      rw [List.map_append]
      have hnotmem : some (pyStrip uR) ∉ st.users.map (fun u => u.username) := by
        intro hmem
        obtain ⟨x, hx, hxe⟩ := List.mem_map.mp hmem
        have hsome : (st.users.find? (fun u => u.username == some (pyStrip uR))).isSome = true := by
          rw [List.find?_isSome]
          exact ⟨x, hx, by rw [hxe]; exact beq_self_eq_true _⟩
        unfold signupError at herr
        split_ifs at herr
      simp [List.nodup_append, h, hnotmem]
  · intro h
    cases herr : signupError st (pyStrip uR) (pyLower (pyStrip eR)) pR with
    | some m => simp only [signup, herr]; exact h
    | none =>
      rw [husers herr]
      unfold emailsUnique at h ⊢
      rw [List.map_append]
      have hnotmem : pyLower (pyStrip eR) ∉ st.users.map (fun u => u.email) := by
        intro hmem
        obtain ⟨x, hx, hxe⟩ := List.mem_map.mp hmem
        have hsome : (st.users.find? (fun u => u.email == pyLower (pyStrip eR))).isSome = true := by
          rw [List.find?_isSome]
          exact ⟨x, hx, by rw [hxe]; exact beq_self_eq_true _⟩
        unfold signupError at herr
        split_ifs at herr
      simp [List.nodup_append, h, hnotmem]
  · intro h
    cases role with
    | none => exact h
    | some r =>
      rcases hc : (r == "customer" || r == "owner") with _ | _
      · simp only [select_role, hc]
        exact h
      · simp only [select_role, hc, if_true]
        unfold usernamesUnique at h ⊢
        rw [updateFirst_map_eq (fun u : UserDoc => u.username)
          (fun u : UserDoc => u._id == current._id)
          (fun u : UserDoc => { u with role := some r }) (fun x => rfl)]
        exact h
  · intro h
    cases role with
    | none => exact h
    | some r =>
      rcases hc : (r == "customer" || r == "owner") with _ | _
      · simp only [select_role, hc]
        exact h
      · simp only [select_role, hc, if_true]
        unfold emailsUnique at h ⊢
        rw [updateFirst_map_eq (fun u : UserDoc => u.email)
          (fun u : UserDoc => u._id == current._id)
          (fun u : UserDoc => { u with role := some r }) (fun x => rfl)]
        exact h
  · intro h
    unfold emailsUnique at h ⊢
    rw [profile_preserves_email_map]
    exact h

/-- Witness for C7: from the demo store (unique usernames and emails), a
fresh signup and a role selection keep both unique, and a profile update
keeps emails unique. -/
theorem user_uniqueness_preservation_witness :
    (usernamesUnique stDemo.users ∧ emailsUnique stDemo.users) ∧
    usernamesUnique (signup stDemo "carol" "c@x.com" "secret1" (fun q => q) oidE 3).st.users ∧
    emailsUnique (signup stDemo "carol" "c@x.com" "secret1" (fun q => q) oidE 3).st.users ∧
    usernamesUnique (select_role stDemo uAlice (some "customer")).st.users ∧
    emailsUnique (profile stDemo uBob (some "alice") none none none).st.users :=
  ⟨⟨by decide, by decide⟩,
   (user_uniqueness_preservation stDemo "carol" "c@x.com" "secret1" (fun q => q)
      oidE 3 uAlice (some "customer") (some "alice") none none none).1 (by decide),
   (user_uniqueness_preservation stDemo "carol" "c@x.com" "secret1" (fun q => q)
      oidE 3 uAlice (some "customer") (some "alice") none none none).2.1 (by decide),
   (user_uniqueness_preservation stDemo "carol" "c@x.com" "secret1" (fun q => q)
      oidE 3 uAlice (some "customer") (some "alice") none none none).2.2.1 (by decide),
   (user_uniqueness_preservation stDemo "carol" "c@x.com" "secret1" (fun q => q)
      oidE 3 uBob (some "customer") (some "alice") none none none).2.2.2.2 (by decide)⟩

/-- Counterexample for C7 as stated: the profile handler applies the submitted
username without a duplicate check, so bob can take alice's username and
produce a store with two records named `alice`. -/
theorem profile_breaks_username_uniqueness :
    usernamesUnique stDemo.users ∧
    ¬usernamesUnique (profile stDemo uBob (some "alice") none none none).st.users := by
  constructor
  · decide
  · decide

/-- A pattern without the `.` wildcard prefix-matches exactly as the
case-insensitive literal prefix comparison. -/
theorem reMatchAt_eq_ciPrefixAt (pat : List Char) (h : ∀ ch ∈ pat, ch ≠ '.') :
    ∀ s, reMatchAt pat s = ciPrefixAt pat s := by
  induction pat with
  | nil => intro s; rfl
  | cons p ps ih =>
    intro s
    cases s with
    | nil => rfl
    | cons c cs =>
      have hp : (p == '.') = false :=
        beq_eq_false_iff_ne.mpr (h p (List.mem_cons_self p ps))
      simp [reMatchAt, ciPrefixAt, hp,
        ih (fun ch hch => h ch (List.mem_cons_of_mem p hch)) cs]

/-- A pattern without the `.` wildcard searches exactly as case-insensitive
substring containment. -/
theorem reSearch_eq_ciSubstring (pat : List Char) (h : ∀ ch ∈ pat, ch ≠ '.') :
    ∀ s, reSearch pat s = ciSubstring pat s := by
  intro s
  induction s with
  | nil =>
    rw [show reSearch pat [] = (reMatchAt pat [] || false) from rfl,
      show ciSubstring pat [] = (ciPrefixAt pat [] || false) from rfl,
      reMatchAt_eq_ciPrefixAt pat h]
  | cons c cs ih =>
    rw [show reSearch pat (c :: cs) = (reMatchAt pat (c :: cs) || reSearch pat cs) from rfl,
      show ciSubstring pat (c :: cs) = (ciPrefixAt pat (c :: cs) || ciSubstring pat cs) from rfl,
      reMatchAt_eq_ciPrefixAt pat h, ih]

/-- C6 (amended): the search handler returns the empty list for an absent or
empty query; the non-empty query reaches the store as a regular expression,
not a literal substring, and for queries containing no regex metacharacter
— where the store's regex match is exactly literal case-insensitive
substring search — the result is exactly the set of cafés whose name
contains the query as a case-insensitive substring. -/
theorem search_filters_by_regex (st : AppState) (q : String) (c : CafeDoc)
    (hq : q ≠ "") :
    search st none = [] ∧
    search st (some "") = [] ∧
    ((∀ ch ∈ q.data, isRegexMeta ch = false) →
       (c ∈ search st (some q) ↔
          c ∈ st.cafes ∧ ciSubstring q.data c.name.data = true) ∧
       search st (some q) = specSearch st q) := by
  have hred : search st (some q) =
      st.cafes.filter (fun x => reSearch q.data x.name.data) := by
    simp only [search, Option.getD_some, if_neg hq]
  refine ⟨rfl, rfl, ?_⟩
  intro hmeta
  have hdot : ∀ ch ∈ q.data, ch ≠ '.' := by
    intro ch hch he
    have hm := hmeta ch hch
    rw [he] at hm
    exact absurd hm (by decide)
  have hfun : (fun x : CafeDoc => reSearch q.data x.name.data) =
      (fun x : CafeDoc => ciSubstring q.data x.name.data) :=
    funext fun x => reSearch_eq_ciSubstring q.data hdot x.name.data
  constructor
  · rw [hred, hfun]
    exact List.mem_filter
  · rw [hred]
    unfold specSearch
    rw [hfun]

/-- Witness for C6 (amended): the metacharacter-free query `blue` finds
exactly the cafés whose name contains it, here `Blue Bottle`. -/
theorem search_filters_by_regex_witness :
    (("blue" : String) ≠ "" ∧
     (∀ ch ∈ ("blue" : String).data, isRegexMeta ch = false)) ∧
    ((cafeBlue ∈ search stDemo (some "blue") ↔
        cafeBlue ∈ stDemo.cafes ∧ ciSubstring "blue".data cafeBlue.name.data = true) ∧
     search stDemo (some "blue") = specSearch stDemo "blue") :=
  ⟨⟨by decide, by decide⟩,
   (search_filters_by_regex stDemo "blue" cafeBlue (by decide)).2.2 (by decide)⟩

/-- Counterexample for C6 as stated: the non-empty query `.` is treated as a
regular expression, so it matches the café named `ab` although `.` is not a
substring of `ab` — the result set is not the set of cafés whose name
contains the query as a case-insensitive substring. -/
theorem search_regex_counterexample :
    search ⟨[], [⟨oidC, "ab"⟩], []⟩ (some ".") = [⟨oidC, "ab"⟩] ∧
    specSearch ⟨[], [⟨oidC, "ab"⟩], []⟩ "." = [] ∧
    ciSubstring ".".data "ab".data = false := by
  refine ⟨rfl, rfl, rfl⟩

/-- C2: review create and edit validation.  If the submitted rating is not an
integer-valued string with value in [1,5], or the submitted body text is
empty after trimming, then the add-review and the edit-review handler each
leave the reviews collection unchanged and flash exactly one of their
specific error messages. -/
theorem review_validation_rejects (st : AppState) (current : UserDoc)
    (cafe_id review_id : String) (formRating formText : Option String)
    (newId : OId) (now : Nat)
    (h : ¬(specRatingOk (formRating.getD "") = true ∧
           pyStrip (formText.getD "") ≠ "")) :
    ((add_review st current cafe_id formRating formText newId now).st.reviews =
       st.reviews ∧
     ∃ m ∈ addReviewErrMsgs,
       (add_review st current cafe_id formRating formText newId now).flashes =
         [(m, "error")]) ∧
    ((edit_review st current review_id formRating formText).st.reviews =
       st.reviews ∧
     ∃ m ∈ editReviewErrMsgs,
       (edit_review st current review_id formRating formText).flashes =
         [(m, "error")]) := by
  constructor
  · cases hpc : parseOId cafe_id with
    | none =>
      refine ⟨?_, "Invalid cafe link.", ?_, ?_⟩
      · simp only [add_review, hpc]
      · decide
      · simp only [add_review, hpc]
    | some oid =>
      cases hfc : st.cafes.find? (fun x => x._id == oid) with
      | none =>
        refine ⟨?_, "Cafe not found.", ?_, ?_⟩
        · simp only [add_review, hpc, hfc]
        · decide
        · simp only [add_review, hpc, hfc]
      | some cafe =>
        rcases hbd : pyIsdigit (pyStrip (formRating.getD "")) with _ | _
        · refine ⟨?_, "Rating must be a number from 1 to 5.", ?_, ?_⟩
          · simp [add_review, hpc, hfc, hbd]
          · decide
          · simp [add_review, hpc, hfc, hbd]
        · by_cases hlow : pyIntNat (pyStrip (formRating.getD "")) < 1
          · refine ⟨?_, "Rating must be between 1 and 5.", ?_, ?_⟩
            · simp [add_review, hpc, hfc, hbd, hlow]
            · decide
            · simp [add_review, hpc, hfc, hbd, hlow]
          · by_cases hhigh : pyIntNat (pyStrip (formRating.getD "")) > 5
            · refine ⟨?_, "Rating must be between 1 and 5.", ?_, ?_⟩
              · simp [add_review, hpc, hfc, hbd, hlow, hhigh]
              · decide
              · simp [add_review, hpc, hfc, hbd, hlow, hhigh]
            · by_cases ht : pyStrip (formText.getD "") = ""
              · refine ⟨?_, "Review text cannot be empty.", ?_, ?_⟩
                · simp [add_review, hpc, hfc, hbd, hlow, hhigh, ht]
                · decide
                · simp [add_review, hpc, hfc, hbd, hlow, hhigh, ht]
              · exact absurd
                  ⟨specRatingOk_of_code _ hbd (Nat.not_lt.mp hlow) (Nat.not_lt.mp hhigh),
                   ht⟩ h
  · cases hpr : parseOId review_id with
    | none =>
      refine ⟨?_, "Invalid review.", ?_, ?_⟩
      · simp only [edit_review, hpr]
      · decide
      · simp only [edit_review, hpr]
    | some rid =>
      cases hfr : st.reviews.find? (fun x => x._id == rid) with
      | none =>
        refine ⟨?_, "Review not found.", ?_, ?_⟩
        · simp only [edit_review, hpr, hfr]
        · decide
        · simp only [edit_review, hpr, hfr]
      | some review =>
        rcases hab : (oidStr review.user_id != oidStr current._id) with _ | _
        · rcases hbd : pyIsdigit (pyStrip (formRating.getD "")) with _ | _
          · refine ⟨?_, editRatingDigitMsg, ?_, ?_⟩
            · simp [edit_review, hpr, hfr, hab, hbd]
            · decide
            · simp [edit_review, hpr, hfr, hab, hbd]
          · by_cases hlow : pyIntNat (pyStrip (formRating.getD "")) < 1
            · refine ⟨?_, "Rating must be between 1 and 5.", ?_, ?_⟩
              · simp [edit_review, hpr, hfr, hab, hbd, hlow]
              · decide
              · simp [edit_review, hpr, hfr, hab, hbd, hlow]
            · by_cases hhigh : pyIntNat (pyStrip (formRating.getD "")) > 5
              · refine ⟨?_, "Rating must be between 1 and 5.", ?_, ?_⟩
                · simp [edit_review, hpr, hfr, hab, hbd, hlow, hhigh]
                · decide
                · simp [edit_review, hpr, hfr, hab, hbd, hlow, hhigh]
              · by_cases ht : pyStrip (formText.getD "") = ""
                · refine ⟨?_, "Review text cannot be empty.", ?_, ?_⟩
                  · simp [edit_review, hpr, hfr, hab, hbd, hlow, hhigh, ht]
                  · decide
                  · simp [edit_review, hpr, hfr, hab, hbd, hlow, hhigh, ht]
                · exact absurd
                    ⟨specRatingOk_of_code _ hbd (Nat.not_lt.mp hlow) (Nat.not_lt.mp hhigh),
                     ht⟩ h
        · refine ⟨?_, "You can only edit your own review.", ?_, ?_⟩
          · simp [edit_review, hpr, hfr, hab]
          · decide
          · simp [edit_review, hpr, hfr, hab]

/-- Witness for C2: rating `6` with non-empty text is rejected by both
handlers without touching the demo store's reviews. -/
theorem review_validation_rejects_witness :
    (¬(specRatingOk ((some "6").getD "") = true ∧
       pyStrip ((some "nice").getD "") ≠ "")) ∧
    (((add_review stDemo uAlice (oidStr oidC) (some "6") (some "nice") oidE 9).st.reviews =
        stDemo.reviews ∧
      ∃ m ∈ addReviewErrMsgs,
        (add_review stDemo uAlice (oidStr oidC) (some "6") (some "nice") oidE 9).flashes =
          [(m, "error")]) ∧
     ((edit_review stDemo uAlice (oidStr oidE) (some "6") (some "nice")).st.reviews =
        stDemo.reviews ∧
      ∃ m ∈ editReviewErrMsgs,
        (edit_review stDemo uAlice (oidStr oidE) (some "6") (some "nice")).flashes =
          [(m, "error")])) :=
  ⟨by decide,
   review_validation_rejects stDemo uAlice (oidStr oidC) (oidStr oidE)
     (some "6") (some "nice") oidE 9 (by decide)⟩
